import Mathlib

/-!
Verification development for the `ai-assistant-suite` repository.

The repository contains:
* a plain Express backend (`apps/assistant-backend/src/index.js`) and a
  "timed" variant of the same endpoint (adds Server-Timing diagnostics),
  both delegating to `openrouter.js`;
* a screen-capture React hook `useAIVision` shipped in two variants
  (an earlier boolean-flag one and a later state-enum one);
* an assistant UI reducer (`assistantReducer`).

Each JavaScript/TypeScript function of interest is embedded as an
executable Lean definition; effects (HTTP fetch, timers, media tracks,
canvas capture) are made explicit as environment records and event lists.
-/

namespace AssistantSuite

/-- Model of a JavaScript value, rich enough for the JSON payloads and
property accesses performed by the backend.  Numbers are modelled as
integers (every number occurring in these payloads is integral). -/
inductive JsVal where
  | null : JsVal
  | undefined : JsVal
  | str (s : String) : JsVal
  | num (n : Int) : JsVal
  | bool (b : Bool) : JsVal
  | arr (xs : List JsVal) : JsVal
  | obj (fields : List (String × JsVal)) : JsVal

/-- First value bound to key `k` in an object's field list; JavaScript
property lookup yields `undefined` when the key is absent. -/
def getInFields : List (String × JsVal) → String → JsVal
  | [], _ => .undefined
  | (k', v) :: rest, k => if k' = k then v else getInFields rest k

/-- JavaScript property access `v.k` for the keys used by this codebase:
objects look the key up, every other value (including primitive strings,
whose prototype has none of the keys used here) yields `undefined`. -/
def jsGetField (v : JsVal) (k : String) : JsVal :=
  match v with
  | .obj fields => getInFields fields k
  | _ => .undefined

/-- JavaScript optional chaining `v?.k`: `null` and `undefined`
short-circuit to `undefined`, otherwise a plain property access. -/
def jsOptField (v : JsVal) (k : String) : JsVal :=
  match v with
  | .null => .undefined
  | .undefined => .undefined
  | w => jsGetField w k

/-- JavaScript optional indexing `v?.[i]`: arrays index their elements,
strings index their characters, anything else yields `undefined`. -/
def jsOptIndex (v : JsVal) (i : Nat) : JsVal :=
  match v with
  | .arr xs => xs.getD i .undefined
  | .str s =>
      if i < s.length then .str (String.mk [s.toList.getD i ' ']) else .undefined
  | _ => .undefined

/-- JavaScript truthiness of the modelled values. -/
def jsTruthy (v : JsVal) : Bool :=
  match v with
  | .null => false
  | .undefined => false
  | .str s => !(s = "")
  | .num n => !(n = 0)
  | .bool b => b
  | .arr _ => true
  | .obj _ => true

/-- JavaScript `Math.round`: floor of the argument plus one half. -/
def jsRound (q : ℚ) : ℤ := ⌊q + 1 / 2⌋

namespace OpenRouter

/-! ## `apps/assistant-backend/src/openrouter.js` -/

/-- `bufferToDataUrlJpeg`: a binary buffer is represented by its base64
encoding (the output of `Buffer.from(buffer).toString("base64")`), and the
function prepends the JPEG data-URL prefix. -/
def bufferToDataUrlJpeg (b64 : String) : String :=
  "data:image/jpeg;base64," ++ b64

/-- One part of an array-shaped chat `content`, as read by
`normalizeContentToText`: falsy parts map to `""`, strings map to
themselves, objects with a string `text` property map to that text,
everything else maps to `""`. -/
def partToText (p : JsVal) : String :=
  if !(jsTruthy p) then ""
  else
    match p with
    | .str s => s
    | _ =>
        match jsOptField p "text" with
        | .str t => t
        | _ => ""

/-- JavaScript `String(v)` for the value shapes reaching the final branch
of `normalizeContentToText` (numbers, booleans, plain objects). -/
def jsStringCoerce (v : JsVal) : String :=
  match v with
  | .num n => toString n
  | .bool b => if b then "true" else "false"
  | .obj _ => "[object Object]"
  | .arr _ => ""
  | .str s => s
  | .null => "null"
  | .undefined => "undefined"

/-- `normalizeContentToText(content)`: `null`/`undefined` become `""`, a
string is returned as-is, an array is mapped part-wise, filtered of empty
strings and joined with newlines, an object with a string `text` field
yields that field, and anything else is coerced with `String(...)`. -/
def normalizeContentToText (content : JsVal) : String :=
  match content with
  | .null => ""
  | .undefined => ""
  | .str s => s
  | .arr parts =>
      String.intercalate "\n" ((parts.map partToText).filter (fun s => !(s = "")))
  | other =>
      match jsOptField other "text" with
      | .str t => t
      | _ => jsStringCoerce other

/-- The provider-response text extraction
`json?.choices?.[0]?.message?.content`. -/
def extractContent (json : JsVal) : JsVal :=
  jsOptField (jsOptField (jsOptIndex (jsOptField json "choices") 0) "message") "content"

/-- The string `openrouterChat` resolves with on a 2xx response whose body
parsed to `json`: the first choice's message content, normalized. -/
def chatSuccessText (json : JsVal) : String :=
  normalizeContentToText (extractContent json)

/-- Observable effects of one `openrouterChat` call: arming the abort
timer, issuing the `fetch`, and clearing the timer. -/
inductive OrEvent where
  | timerSet (ms : Nat) : OrEvent
  | fetchReq (url : String) : OrEvent
  | timerCleared : OrEvent

/-- The HTTP response delivered by the environment on a completed fetch.
`rawText` is the result of `resp.text()` (with the `.catch(() => "")`
fallback already applied); `parsed` models `JSON.parse(rawText)`, `none`
standing for a parse failure. -/
structure HttpResp where
  ok : Bool
  status : Nat
  rawText : String
  parsed : Option JsVal

/-- How the single outbound `fetch` ends: a response, an abort by the
timeout timer (`AbortError`), or another network error. -/
inductive FetchOutcome where
  | resp (r : HttpResp) : FetchOutcome
  | aborted : FetchOutcome
  | netError (msg : String) : FetchOutcome

/-- Environment of one `openrouterChat` call: the `OPENROUTER_API_KEY`
and `OPENROUTER_HTTP_TIMEOUT_MS` environment variables and the fate of
the outbound request. -/
structure OrEnv where
  apiKey : Option String
  timeoutEnv : Option Nat
  outcome : FetchOutcome

/-- The chat-completions endpoint URL. -/
def orEndpoint : String := "https://openrouter.ai/api/v1/chat/completions"

/-- Default of the `timeoutMs` parameter:
`Number(process.env.OPENROUTER_HTTP_TIMEOUT_MS || 60000)`. -/
def effectiveTimeoutMs (timeoutMsArg : Option Nat) (env : OrEnv) : Nat :=
  timeoutMsArg.getD (env.timeoutEnv.getD 60000)

/-- `raw.slice(0, 800)` used in error messages. -/
def take800 (s : String) : String := s.take 800

/-- `openrouterChat` (control flow and effects): missing/empty API key
throws before any request; otherwise the abort timer is armed, exactly one
`fetch` is issued, the timer is cleared in the `finally` block, and the
response is checked (`resp.ok`), read and JSON-parsed (`null` for an empty
body) before the content is extracted and normalized.  Returns the
settled result together with the list of emitted effects. -/
def openrouterChat (env : OrEnv) (timeoutMsArg : Option Nat) :
    Except String String × List OrEvent :=
  if env.apiKey.getD "" = "" then
    (.error "OPENROUTER_API_KEY is missing", [])
  else
    let timeoutMs := effectiveTimeoutMs timeoutMsArg env
    let result : Except String String :=
      match env.outcome with
      | .aborted =>
          .error ("OpenRouter timeout after " ++ toString timeoutMs ++ "ms")
      | .netError m => .error m
      | .resp r =>
          if !r.ok then
            .error ("OpenRouter HTTP " ++ toString r.status ++ ": " ++ take800 r.rawText)
          else if r.rawText = "" then
            .ok (chatSuccessText .null)
          else
            match r.parsed with
            | none => .error ("OpenRouter bad JSON: " ++ take800 r.rawText)
            | some json => .ok (chatSuccessText json)
    (result, [.timerSet timeoutMs, .fetchReq orEndpoint, .timerCleared])

/-- Number of outbound HTTP requests recorded in an effect list. -/
def fetchCount (evs : List OrEvent) : Nat :=
  (evs.filter (fun e => match e with | .fetchReq _ => true | _ => false)).length

end OpenRouter

namespace Backend

/-! ## `apps/assistant-backend/src/index.js` (the plain variant) -/

/-- A multer in-memory upload.  The binary buffer is represented by its
base64 encoding; `buffer = none` models a file record without a buffer
(the code guards every access with `f?.buffer`). -/
structure UploadFile where
  originalname : String
  buffer : Option String

/-- The parsed multipart fields of one `POST /api/assistant/send`
request: `text`, `explainMode`, and the three file fields. -/
structure SendRequest where
  text : String
  explainMode : Bool
  lastFrame : Option UploadFile
  clipFrames : List UploadFile
  attachments : List UploadFile

/-- `hasVision = Boolean(lastFrame) || clipFrames.length > 0`. -/
def hasVision (r : SendRequest) : Bool :=
  r.lastFrame.isSome || decide (0 < r.clipFrames.length)

/-- The text-model resolution
`process.env.OPENROUTER_TEXT_MODEL || "deepseek/deepseek-chat"`. -/
def textModelPlain (envText : Option String) : String :=
  if envText.getD "" = "" then "deepseek/deepseek-chat" else envText.getD ""

/-- The vision-model resolution
`process.env.OPENROUTER_VISION_MODEL || "qwen/qwen2.5-vl-32b-instruct"`. -/
def visionModelPlain (envVision : Option String) : String :=
  if envVision.getD "" = "" then "qwen/qwen2.5-vl-32b-instruct" else envVision.getD ""

/-- `const model = hasVision ? ... : ...` of the plain handler. -/
def modelPlain (envText envVision : Option String) (r : SendRequest) : String :=
  if hasVision r then visionModelPlain envVision else textModelPlain envText

/-- One element of the `user` content array sent to the provider. -/
inductive ContentPart where
  | text (s : String) : ContentPart
  | image_url (url : String) : ContentPart

/-- The fallback prompt pushed when a vision request has no text. -/
def analyzePrompt : String :=
  "Analyze the screenshot(s). Describe what you see and what the user should do next."

/-- The data-URL image part for a file, skipped when the buffer is
absent (`if (f?.buffer)`). -/
def imagePartOf (f : UploadFile) : Option ContentPart :=
  f.buffer.map (fun b => ContentPart.image_url (OpenRouter.bufferToDataUrlJpeg b))

/-- The `userContent` array built by the plain handler: the trimmed-
nonempty text, then (only when `hasVision`) the `lastFrame` image, at
most the first three `clipFrames` images, and — when the text is blank —
the explicit analyze prompt. -/
def userContentPlain (r : SendRequest) : List ContentPart :=
  (if !(r.text.trim = "") then [ContentPart.text r.text] else []) ++
    (if hasVision r then
      ((r.lastFrame.bind imagePartOf).toList ++
        (r.clipFrames.take 3).filterMap imagePartOf ++
        (if r.text.trim = "" then [ContentPart.text analyzePrompt] else []))
    else [])

/-- The image URLs occurring in a content list, in order. -/
def imageUrls (ps : List ContentPart) : List String :=
  ps.filterMap (fun p => match p with | .image_url u => some u | _ => none)

/-- The handler's binding
`const { text: assistantText } = await openrouterChat(...)` followed by
`assistantText || "(empty response)"`: a `text` property access on the
provider call's resolved value, falling back to the literal when falsy. -/
def assistantTextOf (providerResult : JsVal) : JsVal :=
  let assistantText := jsGetField providerResult "text"
  if jsTruthy assistantText then assistantText else .str "(empty response)"

/-- The value `openrouterChat` resolves with on a successful provider
call whose body parsed to `json`: a plain string (see `openrouter.js`). -/
def providerResolvedValue (json : JsVal) : JsVal :=
  .str (OpenRouter.chatSuccessText json)

/-- The `assistantText` field of the plain handler's JSON response when
the provider call succeeded with body `json`. -/
def responseAssistantText (json : JsVal) : JsVal :=
  assistantTextOf (providerResolvedValue json)

/-- The `debug` object of the plain handler's success response. -/
def plainDebugPayload (envText envVision : Option String) (r : SendRequest) : JsVal :=
  .obj
    [("usedModel", .str (modelPlain envText envVision r)),
     ("hasVision", .bool (hasVision r)),
     ("gotLastFrame", .bool r.lastFrame.isSome),
     ("clipFrames", .num r.clipFrames.length),
     ("attachments", .num r.attachments.length),
     ("explainMode", .bool r.explainMode),
     ("textLen", .num r.text.length)]

/-- The whole JSON body of the plain handler's success response. -/
def plainResponseBody (envText envVision : Option String) (r : SendRequest)
    (json : JsVal) : JsVal :=
  .obj
    [("assistantText", responseAssistantText json),
     ("debug", plainDebugPayload envText envVision r)]

end Backend

namespace BackendTimed

/-! ## The timed backend variant of `index.js` (Server-Timing build) -/

open Backend

/-- `Number(process.env.CLIP_FRAMES_LIMIT || 3)`; the environment value
is modelled already parsed. -/
def clipLimit (envLimit : Option Nat) : Nat := envLimit.getD 3

/-- `const clipUsed = clipFrames.slice(0, clipLimit)`. -/
def clipUsed (envLimit : Option Nat) (r : SendRequest) : List UploadFile :=
  r.clipFrames.take (clipLimit envLimit)

/-- The attachment-name list
`attachments.map(f => f?.originalname).filter(Boolean).slice(0, 20)`. -/
def attachmentNames (r : SendRequest) : List String :=
  ((r.attachments.map (fun f => f.originalname)).filter (fun s => !(s = ""))).take 20

/-- The `userParts` array built by the timed handler: the (untrimmed)
truthy text, an `Attached files: ...` note when any names survive, the
`lastFrame` image, and the first `clipLimit` clip-frame images. -/
def userPartsTimed (envLimit : Option Nat) (r : SendRequest) : List ContentPart :=
  (if !(r.text = "") then [ContentPart.text r.text] else []) ++
    (if !(r.attachments.length = 0) && !(attachmentNames r).isEmpty then
      [ContentPart.text ("Attached files: " ++ String.intercalate ", " (attachmentNames r))]
    else []) ++
    (r.lastFrame.bind imagePartOf).toList ++
    (clipUsed envLimit r).filterMap imagePartOf

/-- The timed handler's model selection: same `hasVision` condition, no
hard-coded fallback — a missing/empty model variable throws. -/
def modelTimed (envText envVision : Option String) (r : SendRequest) :
    Except String String :=
  let m := if hasVision r then envVision.getD "" else envText.getD ""
  if m = "" then
    .error "Model is not configured (OPENROUTER_TEXT_MODEL / OPENROUTER_VISION_MODEL)"
  else .ok m

/-- The per-phase durations measured by the timed handler
(milliseconds, already converted from nanosecond counters). -/
structure Timings where
  total : Int
  parse : Int
  build_parts : Int
  b64_images : Int
  openrouter : Int
  respond : Int

/-- The `timings` object literal of the timed handler. -/
def timingsObj (t : Timings) : JsVal :=
  .obj
    [("total", .num t.total),
     ("parse", .num t.parse),
     ("build_parts", .num t.build_parts),
     ("b64_images", .num t.b64_images),
     ("openrouter", .num t.openrouter),
     ("respond", .num t.respond)]

/-- The `debug` object of the timed handler's success response. -/
def timedDebugPayload (requestId : String) (envText envVision : Option String)
    (envLimit : Option Nat) (r : SendRequest) (maxTokens : Nat) (t : Timings) : JsVal :=
  .obj
    [("requestId", .str requestId),
     ("usedModel", .str ((modelTimed envText envVision r).toOption.getD "")),
     ("hasVision", .bool (hasVision r)),
     ("gotLastFrame", .bool r.lastFrame.isSome),
     ("clipFrames", .num r.clipFrames.length),
     ("clipUsed", .num (clipUsed envLimit r).length),
     ("explainMode", .bool r.explainMode),
     ("textLen", .num r.text.length),
     ("maxTokens", .num maxTokens),
     ("ms", .num t.total),
     ("timings", timingsObj t)]

end BackendTimed

/-- A JPEG blob produced by `canvas.toBlob`: an identity for the binary
payload plus the MIME type and quality the canvas was asked for. -/
structure JpegBlob where
  id : Nat
  mime : String
  quality : ℚ

namespace VisionA

/-! ## `useAIVision` — first hook variant (boolean flags) -/

/-- The resolved hook options. -/
structure Config where
  autoCaptureEveryMs : ℕ
  jpegQuality : ℚ
  maxWidth : ℕ

/-- `typeof opts.jpegQuality === "number" ? opts.jpegQuality : 0.75`. -/
def resolveJpegQuality (o : Option ℚ) : ℚ := o.getD (3 / 4)

/-- `Number(opts.maxWidth || 900)`: absent or zero becomes 900. -/
def resolveMaxWidth (o : Option ℕ) : ℕ :=
  if o.getD 0 = 0 then 900 else o.getD 0

/-- A captured frame (`LastFrame`): preview object URL, the blob, the
capture timestamp and the canvas dimensions. -/
structure Frame where
  url : String
  blob : JpegBlob
  capturedAt : ℤ
  w : ℤ
  h : ℤ

/-- The hook's state: refs and React state cells.  A `MediaStream` is
represented by the list of its track identifiers; `videoInit`/`canvasInit`
record whether the hidden video/canvas elements exist. -/
structure State where
  stream : Option (List ℕ)
  track : Option ℕ
  isOn : Bool
  isPaused : Bool
  isRequesting : Bool
  previewUrl : Option String
  lastCaptureText : String
  sourceInfo : Option String
  lastFrame : Option Frame
  videoInit : Bool
  canvasInit : Bool
  autoTimer : Option ℕ

/-- The hook's initial state (all refs null, all flags false, the
last-capture label showing the em-dash placeholder). -/
def initialState : State :=
  { stream := none, track := none, isOn := false, isPaused := false,
    isRequesting := false, previewUrl := none, lastCaptureText := "—",
    sourceInfo := none, lastFrame := none, videoInit := false,
    canvasInit := false, autoTimer := none }

/-- What the browser supplies during one capture: the video dimensions,
whether the 2D context and `toBlob` succeed, the blob identity, the
object URL `URL.createObjectURL` mints, and `Date.now()`. -/
structure CaptureEnv where
  videoWidth : ℕ
  videoHeight : ℕ
  ctxOk : Bool
  toBlobOk : Bool
  blobId : ℕ
  url : String
  now : ℤ

/-- The canvas dimensions computed by this variant's `captureFrameBlob`
(after the `|| 1280` / `|| 720` fallbacks have produced `vw`, `vh`):
`scale = vw > maxWidth ? maxWidth / vw : 1`, and both sides are
`Math.max(1, Math.round(side * scale))`. -/
def captureDims (maxWidth vw vh : ℕ) : ℤ × ℤ :=
  let scale : ℚ := if maxWidth < vw then (maxWidth : ℚ) / (vw : ℚ) else 1
  (max 1 (jsRound ((vw : ℚ) * scale)), max 1 (jsRound ((vh : ℚ) * scale)))

/-- Result of one successful `captureFrameBlob` call. -/
structure CaptureResult where
  blob : JpegBlob
  w : ℤ
  h : ℤ

/-- This variant's `captureFrameBlob`: throws when the video element is
missing, reads `videoWidth || 1280` and `videoHeight || 720`, scales to
`maxWidth`, throws when the 2D context or `toBlob` fail, and otherwise
produces a JPEG blob at the configured quality. -/
def captureFrameBlob (cfg : Config) (videoInit : Bool) (env : CaptureEnv) :
    Except String CaptureResult :=
  if !videoInit then .error "Vision video is not initialized"
  else
    let vw := if env.videoWidth = 0 then 1280 else env.videoWidth
    let vh := if env.videoHeight = 0 then 720 else env.videoHeight
    let d := captureDims cfg.maxWidth vw vh
    if !env.ctxOk then .error "Canvas 2D context not available"
    else if !env.toBlobOk then .error "canvas.toBlob failed"
    else
      .ok { blob := { id := env.blobId, mime := "image/jpeg", quality := cfg.jpegQuality },
            w := d.1, h := d.2 }

/-- Injective model of `new Date(t).toLocaleTimeString()`. -/
def toLocaleTimeString (t : ℤ) : String := "time(" ++ toString t ++ ")"

/-- `reSync`: a no-op resolving `null` when no stream is active;
otherwise captures a frame (propagating capture errors with the state
unchanged), replaces the preview URL, stores the frame in
`lastFrameRef`, and updates the last-capture label. -/
def reSync (cfg : Config) (s : State) (env : CaptureEnv) :
    State × Except String (Option Frame) :=
  match s.stream with
  | none => (s, .ok none)
  | some _ =>
      match captureFrameBlob cfg s.videoInit env with
      | .error e => (s, .error e)
      | .ok res =>
          let lf : Frame :=
            { url := env.url, blob := res.blob, capturedAt := env.now,
              w := res.w, h := res.h }
          ({ s with previewUrl := some env.url, lastFrame := some lf,
                    lastCaptureText := toLocaleTimeString env.now },
           .ok (some lf))

/-- `getLastFrame`: the stored frame's blob, url and timestamp. -/
def getLastFrame (s : State) : Option (JpegBlob × String × ℤ) :=
  s.lastFrame.map (fun lf => (lf.blob, lf.url, lf.capturedAt))

/-- `stop`: clears the auto-capture timer, revokes and nulls the preview,
resets the label and source info, drops the last frame, stops every track
of the current stream, nulls the stream/track/video/canvas refs, and
clears all three flags.  The second component lists the track ids on
which `t.stop()` was invoked. -/
def stop (s : State) : State × List ℕ :=
  ({ stream := none, track := none, isOn := false, isPaused := false,
     isRequesting := false, previewUrl := none, lastCaptureText := "—",
     sourceInfo := none, lastFrame := none, videoInit := false,
     canvasInit := false, autoTimer := none },
   s.stream.getD [])

/-- `pause`: a no-op without a stream; otherwise clears the auto timer
and swaps the flags to paused.  The media stream is left untouched. -/
def pause (s : State) : State :=
  match s.stream with
  | none => s
  | some _ => { s with autoTimer := none, isPaused := true, isOn := false }

/-- `resume`: a no-op without a stream; otherwise swaps the flags back
to on. -/
def resume (s : State) : State :=
  match s.stream with
  | none => s
  | some _ => { s with isPaused := false, isOn := true }

end VisionA

namespace VisionB

/-! ## `useAIVision` — second hook variant (`VisionState` enum) -/

/-- `VisionState`. -/
inductive VState where
  | off | requesting | on | paused | error
deriving DecidableEq

/-- The resolved hook options (`?? 0`, `?? 0.75`, `?? 900`). -/
structure Config where
  autoCaptureEveryMs : ℕ
  jpegQuality : ℚ
  maxWidth : ℕ

/-- `opts?.jpegQuality ?? 0.75`. -/
def resolveJpegQuality (o : Option ℚ) : ℚ := o.getD (3 / 4)

/-- `opts?.maxWidth ?? 900`. -/
def resolveMaxWidth (o : Option ℕ) : ℕ := o.getD 900

/-- `CapturedFrame` of this variant. -/
structure Frame where
  blob : JpegBlob
  url : String
  capturedAt : ℤ
  width : ℤ
  height : ℤ

/-- The hook's state. -/
structure State where
  state : VState
  lastCaptureAt : Option ℤ
  previewUrl : Option String
  sourceInfo : Option String
  error : Option String
  lastFrame : Option Frame
  stream : Option (List ℕ)
  videoInit : Bool
  canvasInit : Bool
  timer : Option ℕ
  lastBlobUrl : Option String

/-- What the browser supplies during one capture; `throwMsg` models an
exception raised inside the `try` block (caught by the hook). -/
structure CaptureEnv where
  videoWidth : ℕ
  videoHeight : ℕ
  ctxOk : Bool
  toBlobOk : Bool
  blobId : ℕ
  url : String
  now : ℤ
  throwMsg : Option String

/-- The canvas dimensions of this variant's `captureFrameBlob`:
`null` when either video dimension is zero, otherwise
`scale = Math.min(1, maxWidth / vw)` with both sides
`Math.max(1, Math.round(side * scale))`. -/
def captureDims (maxWidth vw vh : ℕ) : Option (ℤ × ℤ) :=
  if vw = 0 || vh = 0 then none
  else
    let scale : ℚ := min 1 ((maxWidth : ℚ) / (vw : ℚ))
    some (max 1 (jsRound ((vw : ℚ) * scale)), max 1 (jsRound ((vh : ℚ) * scale)))

/-- `ensureVideo`: lazily creates the hidden video and canvas elements. -/
def ensureVideo (s : State) : State :=
  { s with videoInit := true, canvasInit := true }

/-- This variant's `captureFrameBlob`: `null` without a stream; after
`ensureVideo`, a raised exception records the error and enters the
`error` state; zero video dimensions, a missing 2D context or a `null`
`toBlob` result all yield `null`; otherwise a JPEG frame at the
configured quality, stamped with `Date.now()` and a fresh object URL. -/
def captureFrameBlob (cfg : Config) (s : State) (env : CaptureEnv) :
    State × Option Frame :=
  match s.stream with
  | none => (s, none)
  | some _ =>
      let s₁ := ensureVideo s
      match env.throwMsg with
      | some m => ({ s₁ with error := some m, state := .error }, none)
      | none =>
          match captureDims cfg.maxWidth env.videoWidth env.videoHeight with
          | none => (s₁, none)
          | some d =>
              if !env.ctxOk then (s₁, none)
              else if !env.toBlobOk then (s₁, none)
              else
                (s₁,
                 some { blob := { id := env.blobId, mime := "image/jpeg",
                                  quality := cfg.jpegQuality },
                        url := env.url, capturedAt := env.now,
                        width := d.1, height := d.2 })

/-- `applyLastFrameToUI`: swaps the preview object URL, records the
capture timestamp, clears the error, and stores the frame for the API. -/
def applyLastFrameToUI (s : State) (f : Frame) : State :=
  { s with lastBlobUrl := some f.url, previewUrl := some f.url,
           lastCaptureAt := some f.capturedAt, error := none,
           lastFrame := some f }

/-- `captureOnce`: capture a frame and, when one was produced, apply it
to the UI. -/
def captureOnce (cfg : Config) (s : State) (env : CaptureEnv) : State :=
  match captureFrameBlob cfg s env with
  | (s₁, none) => s₁
  | (s₁, some f) => applyLastFrameToUI s₁ f

/-- `reSync` of this variant is exactly `captureOnce`. -/
def reSync (cfg : Config) (s : State) (env : CaptureEnv) : State :=
  captureOnce cfg s env

/-- `getLastFrame`. -/
def getLastFrame (s : State) : Option Frame := s.lastFrame

/-- `stop`: stops the timer, revokes the preview and last-frame URLs,
clears frame/preview/timestamp/source/error, enters `off`, detaches the
video, nulls the stream ref and stops every track of the former stream
(second component: the ids `t.stop()` was invoked on).  The video and
canvas elements themselves are kept. -/
def stop (s : State) : State × List ℕ :=
  ({ s with timer := none, lastBlobUrl := none, lastFrame := none,
            previewUrl := none, lastCaptureAt := none, sourceInfo := none,
            error := none, state := .off, stream := none },
   s.stream.getD [])

/-- `pause`: only acts in the `on` state, where it stops the timer and
enters `paused`.  The media stream is left untouched. -/
def pause (s : State) : State :=
  if s.state = .on then { s with timer := none, state := .paused } else s

/-- `resume`: only acts in the `paused` state, where it re-enters `on`
and restarts the auto-capture interval (identified by `tid`) when
auto-capture is configured. -/
def resume (cfg : Config) (tid : ℕ) (s : State) : State :=
  if s.state = .paused then
    { s with state := .on,
             timer := if 0 < cfg.autoCaptureEveryMs then some tid else none }
  else s

end VisionB

namespace Core

/-! ## `@assistant/core` — the assistant state reducer -/

/-- Message roles. -/
inductive Role where
  | user | assistant | system
deriving DecidableEq

/-- A chat message. -/
structure ChatMessage where
  id : String
  role : Role
  content : String
  createdAt : ℤ
deriving DecidableEq

/-- `AttachmentKind`. -/
inductive AttachmentKind where
  | code | logs | text
deriving DecidableEq

/-- An attachment. -/
structure Attachment where
  id : String
  kind : AttachmentKind
  title : String
  content : String
  createdAt : ℤ
deriving DecidableEq

/-- The vision setting (`"off" | "on" | "paused"`). -/
inductive VisionSetting where
  | off | on | paused
deriving DecidableEq

/-- `AssistantSettings`. -/
structure AssistantSettings where
  vision : VisionSetting
  explainMode : Bool
  speakOutput : Bool
deriving DecidableEq

/-- `AssistantState`. -/
structure AssistantState where
  isOpen : Bool
  settings : AssistantSettings
  inputText : String
  attachments : List Attachment
  messages : List ChatMessage
  lastVisionCaptureAt : Option ℤ

/-- The `set_setting` payload (`key` together with a matching `value`). -/
inductive SettingUpdate where
  | vision (value : VisionSetting)
  | explainMode (value : Bool)
  | speakOutput (value : Bool)

/-- `{ ...state.settings, [action.key]: action.value }`. -/
def applySetting (s : AssistantSettings) : SettingUpdate → AssistantSettings
  | .vision v => { s with vision := v }
  | .explainMode b => { s with explainMode := b }
  | .speakOutput b => { s with speakOutput := b }

/-- `AssistantAction`. -/
inductive AssistantAction where
  | toggle_open
  | set_open (value : Bool)
  | set_input (value : String)
  | set_setting (kv : SettingUpdate)
  | add_attachment (att : Attachment)
  | remove_attachment (id : String)
  | add_message (msg : ChatMessage)
  | mark_vision_capture (ts : ℤ)
  | clear_chat

/-- `assistantReducer`. -/
def assistantReducer (state : AssistantState) : AssistantAction → AssistantState
  | .toggle_open => { state with isOpen := !state.isOpen }
  | .set_open value => { state with isOpen := value }
  | .set_input value => { state with inputText := value }
  | .set_setting kv => { state with settings := applySetting state.settings kv }
  | .add_attachment att => { state with attachments := att :: state.attachments }
  | .remove_attachment i =>
      { state with attachments := state.attachments.filter (fun a => !(decide (a.id = i))) }
  | .add_message msg => { state with messages := state.messages ++ [msg] }
  | .mark_vision_capture ts => { state with lastVisionCaptureAt := some ts }
  | .clear_chat =>
      { state with messages := state.messages.filter (fun m => decide (m.role = Role.system)) }

end Core

/-! ## Spec-side characterizations and concrete sample inputs -/

/-- Spec-side: the data URL of the `lastFrame` upload (empty list when the
file or its buffer is absent). -/
def lastFrameDataUrls (r : Backend.SendRequest) : List String :=
  (r.lastFrame.bind (fun f => f.buffer.map OpenRouter.bufferToDataUrlJpeg)).toList

/-- Spec-side: the data URLs of the first `n` clip frames that carry a
buffer. -/
def clipDataUrls (n : ℕ) (r : Backend.SendRequest) : List String :=
  (r.clipFrames.take n).filterMap (fun f => f.buffer.map OpenRouter.bufferToDataUrlJpeg)

/-- The frame variant A's `reSync` stores when capture succeeds. -/
def newFrameA (cfg : VisionA.Config) (env : VisionA.CaptureEnv) : VisionA.Frame :=
  { url := env.url,
    blob := { id := env.blobId, mime := "image/jpeg", quality := cfg.jpegQuality },
    capturedAt := env.now,
    w := (VisionA.captureDims cfg.maxWidth
            (if env.videoWidth = 0 then 1280 else env.videoWidth)
            (if env.videoHeight = 0 then 720 else env.videoHeight)).1,
    h := (VisionA.captureDims cfg.maxWidth
            (if env.videoWidth = 0 then 1280 else env.videoWidth)
            (if env.videoHeight = 0 then 720 else env.videoHeight)).2 }

/-- The frame variant B's `reSync` stores when capture succeeds. -/
def newFrameB (cfg : VisionB.Config) (env : VisionB.CaptureEnv) : VisionB.Frame :=
  { blob := { id := env.blobId, mime := "image/jpeg", quality := cfg.jpegQuality },
    url := env.url, capturedAt := env.now,
    width := ((VisionB.captureDims cfg.maxWidth env.videoWidth env.videoHeight).getD (1, 1)).1,
    height := ((VisionB.captureDims cfg.maxWidth env.videoWidth env.videoHeight).getD (1, 1)).2 }

/-- A provider response whose first choice carries the message text
`"Hello!"`. -/
def sampleProviderJson : JsVal :=
  .obj
    [("id", .str "gen-123"),
     ("choices",
       .arr
         [.obj
           [("message",
             .obj [("role", .str "assistant"), ("content", .str "Hello!")])]])]

/-- A text-only request (`text = "hello"`, no files). -/
def sampleTextRequest : Backend.SendRequest :=
  { text := "hello", explainMode := false, lastFrame := none,
    clipFrames := [], attachments := [] }

/-- An attachments-only request. -/
def sampleAttachmentsRequest : Backend.SendRequest :=
  { text := "", explainMode := false, lastFrame := none, clipFrames := [],
    attachments := [{ originalname := "notes.txt", buffer := some "QkJC" }] }

/-- A vision request: a last frame and five clip frames. -/
def sampleVisionRequest : Backend.SendRequest :=
  { text := "what is on screen?", explainMode := false,
    lastFrame := some { originalname := "last-frame.jpg", buffer := some "TEFTVA" },
    clipFrames :=
      [{ originalname := "clip-1.jpg", buffer := some "QQ" },
       { originalname := "clip-2.jpg", buffer := some "Qg" },
       { originalname := "clip-3.jpg", buffer := some "Qw" },
       { originalname := "clip-4.jpg", buffer := some "RA" },
       { originalname := "clip-5.jpg", buffer := some "RQ" }],
    attachments := [] }

/-- An `openrouterChat` environment with no API key configured. -/
def envWithoutKey : OpenRouter.OrEnv :=
  { apiKey := none, timeoutEnv := none, outcome := .aborted }

/-- An `openrouterChat` environment with a key, default timeout, and a
fetch aborted by the timer. -/
def envAbortedFetch : OpenRouter.OrEnv :=
  { apiKey := some "sk-or-test", timeoutEnv := none, outcome := .aborted }

/-- Variant A state with an active two-track stream and initialized
internals (as after a successful `start`). -/
def activeStateA : VisionA.State :=
  { VisionA.initialState with
      stream := some [1, 2], track := some 1, isOn := true,
      videoInit := true, canvasInit := true,
      previewUrl := some "blob:old", sourceInfo := some "Shared screen" }

/-- Variant B state with an active stream in the `on` state. -/
def activeStateB : VisionB.State :=
  { state := .on, lastCaptureAt := some 50, previewUrl := some "blob:old",
    sourceInfo := some "Display capture", error := none,
    lastFrame := none, stream := some [7], videoInit := true,
    canvasInit := true, timer := none, lastBlobUrl := some "blob:old" }

/-- Variant B state paused with the stream still alive. -/
def pausedStateB : VisionB.State :=
  { activeStateB with state := .paused }

/-- Variant B state fully off (no stream). -/
def offStateB : VisionB.State :=
  { activeStateB with state := .off, stream := none }

/-- A benign capture environment for variant A. -/
def goodEnvA : VisionA.CaptureEnv :=
  { videoWidth := 1920, videoHeight := 1080, ctxOk := true, toBlobOk := true,
    blobId := 11, url := "blob:new", now := 1700000000000 }

/-- A benign capture environment for variant B. -/
def goodEnvB : VisionB.CaptureEnv :=
  { videoWidth := 1920, videoHeight := 1080, ctxOk := true, toBlobOk := true,
    blobId := 12, url := "blob:fresh", now := 1700000000500, throwMsg := none }

/-- A sample hook configuration (the values used by the apps). -/
def sampleCfgA : VisionA.Config :=
  { autoCaptureEveryMs := 0, jpegQuality := 3 / 4, maxWidth := 900 }

/-- A sample hook configuration for variant B. -/
def sampleCfgB : VisionB.Config :=
  { autoCaptureEveryMs := 0, jpegQuality := 3 / 4, maxWidth := 900 }

/-- A reducer state with one system message, one user and one assistant
message, and nontrivial values in every other field. -/
def sampleAssistantState : Core.AssistantState :=
  { isOpen := true,
    settings := { vision := .on, explainMode := true, speakOutput := false },
    inputText := "draft",
    attachments :=
      [{ id := "att-1", kind := .code, title := "code.ts", content := "x", createdAt := 5 }],
    messages :=
      [{ id := "sys-1", role := .system, content := "Assistant ready.", createdAt := 1 },
       { id := "u-1", role := .user, content := "hi", createdAt := 2 },
       { id := "a-1", role := .assistant, content := "hello", createdAt := 3 }],
    lastVisionCaptureAt := some 42 }

end AssistantSuite

namespace AssistantSuite

/-! # Theorems -/

theorem jsRound_intCast (n : ℤ) : jsRound (n : ℚ) = n := by
  unfold jsRound
  rw [Int.floor_eq_iff]
  constructor <;> linarith

theorem jsRound_natCast (n : ℕ) : jsRound (n : ℚ) = (n : ℤ) := by
  have h := jsRound_intCast (n : ℤ)
  rw [← h]
  norm_num

/-- C1: the plain backend is claimed to answer with the text extracted
from the provider's first choice (or `"(empty response)"` when that text
is empty).  On the shipped pairing this fails: `openrouter.js` resolves
with a plain string, `index.js` destructures a `text` property out of it
(always `undefined`), so even for a provider response carrying the
non-empty text `"Hello!"` the endpoint answers `"(empty response)"`. -/
theorem c1_plain_backend_drops_provider_text :
    OpenRouter.chatSuccessText sampleProviderJson = "Hello!" ∧
    Backend.providerResolvedValue sampleProviderJson = JsVal.str "Hello!" ∧
    Backend.responseAssistantText sampleProviderJson = JsVal.str "(empty response)" ∧
    "Hello!" ≠ "" ∧ "Hello!" ≠ "(empty response)" := by
  refine ⟨rfl, rfl, rfl, by decide, by decide⟩

/-- C2 (counterexample): the plain handler's success response for a
concrete request carries a `debug` payload with exactly the model, the
flags and the counts — its `ms` and `timings` keys are absent
(`undefined`), so the response includes no timing diagnostics. -/
theorem c2_plain_debug_payload_has_no_timings :
    Backend.plainDebugPayload none none sampleTextRequest =
      JsVal.obj
        [("usedModel", .str "deepseek/deepseek-chat"),
         ("hasVision", .bool false),
         ("gotLastFrame", .bool false),
         ("clipFrames", .num 0),
         ("attachments", .num 0),
         ("explainMode", .bool false),
         ("textLen", .num 5)] ∧
    jsGetField (Backend.plainDebugPayload none none sampleTextRequest) "ms" = JsVal.undefined ∧
    jsGetField (Backend.plainDebugPayload none none sampleTextRequest) "timings" = JsVal.undefined := by
  refine ⟨rfl, rfl, rfl⟩

/-- C2 (amended): only the timed backend variant reports timing
diagnostics — its success `debug` payload carries `ms` (the total
milliseconds) and a `timings` object with the per-phase entries `parse`,
`build_parts`, `b64_images`, `openrouter`, `respond` and `total`; the
plain variant's `debug` payload never carries `ms` or `timings`. -/
theorem c2_timed_debug_payload_reports_timings (requestId : String)
    (envText envVision : Option String) (envLimit : Option Nat)
    (r : Backend.SendRequest) (maxTokens : Nat) (t : BackendTimed.Timings) :
    jsGetField
        (BackendTimed.timedDebugPayload requestId envText envVision envLimit r maxTokens t)
        "ms" = JsVal.num t.total ∧
    jsGetField
        (BackendTimed.timedDebugPayload requestId envText envVision envLimit r maxTokens t)
        "timings" = BackendTimed.timingsObj t ∧
    jsGetField (BackendTimed.timingsObj t) "total" = JsVal.num t.total ∧
    jsGetField (BackendTimed.timingsObj t) "parse" = JsVal.num t.parse ∧
    jsGetField (BackendTimed.timingsObj t) "build_parts" = JsVal.num t.build_parts ∧
    jsGetField (BackendTimed.timingsObj t) "b64_images" = JsVal.num t.b64_images ∧
    jsGetField (BackendTimed.timingsObj t) "openrouter" = JsVal.num t.openrouter ∧
    jsGetField (BackendTimed.timingsObj t) "respond" = JsVal.num t.respond ∧
    (∀ (eT eV : Option String) (req : Backend.SendRequest),
        jsGetField (Backend.plainDebugPayload eT eV req) "ms" = JsVal.undefined ∧
        jsGetField (Backend.plainDebugPayload eT eV req) "timings" = JsVal.undefined) := by
  refine ⟨rfl, rfl, rfl, rfl, rfl, rfl, rfl, rfl, fun eT eV req => ⟨rfl, rfl⟩⟩

/-- C4: with an active stream (and the browser delivering a frame),
`reSync` replaces the preview URL, the capture timestamp/label and the
frame returned by `getLastFrame` with the freshly captured frame, in both
hook variants; without a stream it changes nothing and captures
nothing. -/
theorem c4_resync_refreshes_capture :
    (∀ (cfg : VisionA.Config) (s : VisionA.State) (env : VisionA.CaptureEnv),
        s.stream = none → VisionA.reSync cfg s env = (s, .ok none)) ∧
    (∀ (cfg : VisionA.Config) (s : VisionA.State) (env : VisionA.CaptureEnv)
        (ts : List ℕ),
        s.stream = some ts → s.videoInit = true →
        env.ctxOk = true → env.toBlobOk = true →
        VisionA.reSync cfg s env =
          ({ s with previewUrl := some env.url,
                    lastFrame := some (newFrameA cfg env),
                    lastCaptureText := VisionA.toLocaleTimeString env.now },
           .ok (some (newFrameA cfg env))) ∧
        VisionA.getLastFrame (VisionA.reSync cfg s env).1
          = some ((newFrameA cfg env).blob, env.url, env.now)) ∧
    (∀ (cfg : VisionB.Config) (s : VisionB.State) (env : VisionB.CaptureEnv),
        s.stream = none → VisionB.reSync cfg s env = s) ∧
    (∀ (cfg : VisionB.Config) (s : VisionB.State) (env : VisionB.CaptureEnv)
        (ts : List ℕ),
        s.stream = some ts → env.throwMsg = none →
        ¬ env.videoWidth = 0 → ¬ env.videoHeight = 0 →
        env.ctxOk = true → env.toBlobOk = true →
        (VisionB.reSync cfg s env).previewUrl = some env.url ∧
        (VisionB.reSync cfg s env).lastCaptureAt = some env.now ∧
        VisionB.getLastFrame (VisionB.reSync cfg s env) = some (newFrameB cfg env) ∧
        (VisionB.reSync cfg s env).stream = s.stream) := by
  refine ⟨?_, ?_, ?_, ?_⟩
  · intro cfg s env h
    simp [VisionA.reSync, h]
  · intro cfg s env ts h hv hctx htb
    constructor
    · simp [VisionA.reSync, VisionA.captureFrameBlob, h, hv, hctx, htb, newFrameA]
    · simp [VisionA.reSync, VisionA.captureFrameBlob, h, hv, hctx, htb, newFrameA,
            VisionA.getLastFrame]
  · intro cfg s env h
    simp [VisionB.reSync, VisionB.captureOnce, VisionB.captureFrameBlob, h]
  · intro cfg s env ts h hth hw hh hctx htb
    refine ⟨?_, ?_, ?_, ?_⟩ <;>
      simp [VisionB.reSync, VisionB.captureOnce, VisionB.captureFrameBlob,
            VisionB.captureDims, VisionB.ensureVideo, VisionB.applyLastFrameToUI,
            VisionB.getLastFrame, newFrameB, h, hth, hw, hh, hctx, htb]

/-- C4 witness: on concrete active states and a benign environment,
`reSync` installs the new frame in both variants; on no-stream states it
is the identity. -/
theorem c4_resync_witness :
    (VisionA.reSync sampleCfgA activeStateA goodEnvA).1.previewUrl = some "blob:new" ∧
    VisionA.getLastFrame (VisionA.reSync sampleCfgA activeStateA goodEnvA).1
      = some ((newFrameA sampleCfgA goodEnvA).blob, "blob:new", 1700000000000) ∧
    VisionA.reSync sampleCfgA VisionA.initialState goodEnvA
      = (VisionA.initialState, .ok none) ∧
    VisionB.reSync sampleCfgB offStateB goodEnvB = offStateB ∧
    (VisionB.reSync sampleCfgB activeStateB goodEnvB).lastCaptureAt
      = some 1700000000500 := by
  have h := c4_resync_refreshes_capture
  have hA := h.2.1 sampleCfgA activeStateA goodEnvA [1, 2] rfl rfl rfl rfl
  have hB := h.2.2.2 sampleCfgB activeStateB goodEnvB [7] rfl rfl
      (by decide) (by decide) rfl rfl
  refine ⟨?_, hA.2, h.1 sampleCfgA VisionA.initialState goodEnvA rfl,
          h.2.2.1 sampleCfgB offStateB goodEnvB rfl, hB.2.1⟩
  rw [hA.1]
  rfl

/-- C5: `captureFrameBlob` asks the canvas for an `image/jpeg` blob at
the configured quality (default 0.75) in both variants; the canvas width
equals the source video width when it is at most `maxWidth` (default
900) and equals `maxWidth` otherwise, and both rounded dimensions are at
least one pixel. -/
theorem c5_capture_jpeg_and_dimensions :
    (∀ (cfg : VisionA.Config) (env : VisionA.CaptureEnv),
        env.ctxOk = true → env.toBlobOk = true →
        VisionA.captureFrameBlob cfg true env =
          .ok { blob := { id := env.blobId, mime := "image/jpeg",
                          quality := cfg.jpegQuality },
                w := (VisionA.captureDims cfg.maxWidth
                        (if env.videoWidth = 0 then 1280 else env.videoWidth)
                        (if env.videoHeight = 0 then 720 else env.videoHeight)).1,
                h := (VisionA.captureDims cfg.maxWidth
                        (if env.videoWidth = 0 then 1280 else env.videoWidth)
                        (if env.videoHeight = 0 then 720 else env.videoHeight)).2 }) ∧
    (∀ (cfg : VisionB.Config) (s : VisionB.State) (env : VisionB.CaptureEnv)
        (ts : List ℕ),
        s.stream = some ts → env.throwMsg = none →
        ¬ env.videoWidth = 0 → ¬ env.videoHeight = 0 →
        env.ctxOk = true → env.toBlobOk = true →
        ((VisionB.captureFrameBlob cfg s env).2.map
            (fun f => (f.blob.mime, f.blob.quality)))
          = some ("image/jpeg", cfg.jpegQuality)) ∧
    (∀ mw vw vh : ℕ, 1 ≤ vw → vw ≤ mw →
        (VisionA.captureDims mw vw vh).1 = (vw : ℤ)) ∧
    (∀ mw vw vh : ℕ, 1 ≤ mw → mw < vw →
        (VisionA.captureDims mw vw vh).1 = (mw : ℤ)) ∧
    (∀ mw vw vh : ℕ,
        1 ≤ (VisionA.captureDims mw vw vh).1 ∧ 1 ≤ (VisionA.captureDims mw vw vh).2) ∧
    (∀ mw vw vh : ℕ, 1 ≤ vw → 1 ≤ vh →
        VisionB.captureDims mw vw vh = some (VisionA.captureDims mw vw vh)) ∧
    (VisionA.resolveJpegQuality none = 0.75 ∧ VisionB.resolveJpegQuality none = 0.75 ∧
      VisionA.resolveMaxWidth none = 900 ∧ VisionB.resolveMaxWidth none = 900) := by
  refine ⟨?_, ?_, ?_, ?_, ?_, ?_, ?_, ?_, ?_, ?_⟩
  · intro cfg env hctx htb
    simp [VisionA.captureFrameBlob, hctx, htb]
  · intro cfg s env ts h hth hw hh hctx htb
    simp [VisionB.captureFrameBlob, VisionB.captureDims, VisionB.ensureVideo,
          h, hth, hw, hh, hctx, htb]
  · intro mw vw vh h1 h2
    simp only [VisionA.captureDims, if_neg (not_lt.mpr h2), mul_one, jsRound_natCast]
    exact max_eq_right (by exact_mod_cast h1)
  · intro mw vw vh h1 h2
    have hv0 : (vw : ℚ) ≠ 0 := by
      have hvpos : 0 < vw := by omega
      exact_mod_cast hvpos.ne'
    have hmul : (vw : ℚ) * ((mw : ℚ) / (vw : ℚ)) = (mw : ℚ) := by
      field_simp
    simp only [VisionA.captureDims, if_pos h2, hmul, jsRound_natCast]
    exact max_eq_right (by exact_mod_cast h1)
  · intro mw vw vh
    simp only [VisionA.captureDims]
    exact ⟨le_max_left _ _, le_max_left _ _⟩
  · intro mw vw vh h1 h2
    have hw0 : ¬ vw = 0 := by omega
    have hh0 : ¬ vh = 0 := by omega
    have hpos : (0 : ℚ) < (vw : ℚ) := by exact_mod_cast Nat.pos_of_ne_zero hw0
    have hsc : min 1 ((mw : ℚ) / (vw : ℚ))
        = (if mw < vw then (mw : ℚ) / (vw : ℚ) else 1) := by
      by_cases hc : mw < vw
      · rw [if_pos hc]
        exact min_eq_right (le_of_lt ((div_lt_one hpos).mpr (by exact_mod_cast hc)))
      · rw [if_neg hc]
        exact min_eq_left ((one_le_div hpos).mpr (by exact_mod_cast not_lt.mp hc))
    simp only [VisionB.captureDims, VisionA.captureDims, hw0, hh0, hsc,
               decide_False, Bool.or_self, Bool.false_eq_true, if_false]
  · norm_num [VisionA.resolveJpegQuality]
  · norm_num [VisionB.resolveJpegQuality]
  · rfl
  · rfl

/-- C5 witness: with the app's `maxWidth = 900`, a 1920×1080 video is
downscaled to width 900, an 800-wide video keeps its width, the two
variants agree, and the defaults resolve to 0.75 and 900. -/
theorem c5_dimensions_witness :
    (VisionA.captureDims 900 1920 1080).1 = 900 ∧
    (VisionA.captureDims 900 800 600).1 = 800 ∧
    VisionB.captureDims 900 1920 1080 = some (VisionA.captureDims 900 1920 1080) ∧
    VisionA.resolveMaxWidth none = 900 := by
  have h := c5_capture_jpeg_and_dimensions
  exact ⟨h.2.2.2.1 900 1920 1080 (by norm_num) (by norm_num),
         h.2.2.1 900 800 600 (by norm_num) (by norm_num),
         h.2.2.2.2.2.1 900 1920 1080 (by norm_num) (by norm_num),
         h.2.2.2.2.2.2.2.2.1⟩

/-- C6: with a stream active, `pause` moves on→paused without touching
the stream and `resume` moves paused→on, in both hook variants; with no
stream (capture off) both operations are the identity. -/
theorem c6_pause_resume_lifecycle :
    (∀ s : VisionA.State, s.stream = none →
        VisionA.pause s = s ∧ VisionA.resume s = s) ∧
    (∀ (s : VisionA.State) (ts : List ℕ), s.stream = some ts →
        VisionA.pause s = { s with autoTimer := none, isPaused := true, isOn := false } ∧
        (VisionA.pause s).stream = s.stream ∧
        VisionA.resume s = { s with isPaused := false, isOn := true } ∧
        (VisionA.resume s).stream = s.stream) ∧
    (∀ s : VisionB.State, s.state = .on →
        VisionB.pause s = { s with timer := none, state := .paused } ∧
        (VisionB.pause s).stream = s.stream) ∧
    (∀ (cfg : VisionB.Config) (tid : ℕ) (s : VisionB.State), s.state = .paused →
        (VisionB.resume cfg tid s).state = .on ∧
        (VisionB.resume cfg tid s).stream = s.stream) ∧
    (∀ (cfg : VisionB.Config) (tid : ℕ) (s : VisionB.State), s.state = .off →
        VisionB.pause s = s ∧ VisionB.resume cfg tid s = s) := by
  refine ⟨?_, ?_, ?_, ?_, ?_⟩
  · intro s h
    exact ⟨by simp [VisionA.pause, h], by simp [VisionA.resume, h]⟩
  · intro s ts h
    refine ⟨by simp [VisionA.pause, h], ?_, by simp [VisionA.resume, h], ?_⟩
    · simp [VisionA.pause, h]
    · simp [VisionA.resume, h]
  · intro s h
    exact ⟨by simp [VisionB.pause, h], by simp [VisionB.pause, h]⟩
  · intro cfg tid s h
    exact ⟨by simp [VisionB.resume, h], by simp [VisionB.resume, h]⟩
  · intro cfg tid s h
    constructor
    · simp [VisionB.pause, h]
    · simp [VisionB.resume, h]

/-- C6 witness: on concrete states — pause/resume act on the active
states and are the identity on the off states. -/
theorem c6_pause_resume_witness :
    VisionA.pause VisionA.initialState = VisionA.initialState ∧
    VisionA.pause activeStateA
      = { activeStateA with autoTimer := none, isPaused := true, isOn := false } ∧
    (VisionB.resume sampleCfgB 5 pausedStateB).state = VisionB.VState.on ∧
    VisionB.pause offStateB = offStateB := by
  have h := c6_pause_resume_lifecycle
  exact ⟨(h.1 VisionA.initialState rfl).1,
         (h.2.1 activeStateA [1, 2] rfl).1,
         (h.2.2.2.1 sampleCfgB 5 pausedStateB rfl).1,
         (h.2.2.2.2 sampleCfgB 5 offStateB rfl).1⟩

/-- C7: `stop` resets both hook variants to their off state — no
on/paused/requesting flag survives, preview and source info are null,
`getLastFrame` returns null, and the returned effect list shows that
every track of the former stream was stopped — and a second `stop`
changes nothing further and stops no track. -/
theorem c7_stop_resets_state_and_is_idempotent :
    (∀ s : VisionA.State,
        VisionA.stop s = (VisionA.initialState, s.stream.getD []) ∧
        (VisionA.stop s).1.isOn = false ∧
        (VisionA.stop s).1.isPaused = false ∧
        (VisionA.stop s).1.isRequesting = false ∧
        (VisionA.stop s).1.previewUrl = none ∧
        (VisionA.stop s).1.sourceInfo = none ∧
        VisionA.getLastFrame (VisionA.stop s).1 = none ∧
        VisionA.stop (VisionA.stop s).1 = (VisionA.initialState, [])) ∧
    (∀ s : VisionB.State,
        (VisionB.stop s).1.state = VisionB.VState.off ∧
        (VisionB.stop s).1.previewUrl = none ∧
        (VisionB.stop s).1.sourceInfo = none ∧
        (VisionB.stop s).1.lastCaptureAt = none ∧
        VisionB.getLastFrame (VisionB.stop s).1 = none ∧
        (VisionB.stop s).2 = s.stream.getD [] ∧
        VisionB.stop (VisionB.stop s).1 = ((VisionB.stop s).1, [])) := by
  constructor
  · intro s
    exact ⟨rfl, rfl, rfl, rfl, rfl, rfl, rfl, rfl⟩
  · intro s
    exact ⟨rfl, rfl, rfl, rfl, rfl, rfl, rfl⟩

/-- C3 (counterexample): a call with no `OPENROUTER_API_KEY` configured
throws `"OPENROUTER_API_KEY is missing"` before the timer is armed or any
request is issued — its effect trace contains zero outbound requests, not
exactly one. -/
theorem c3_missing_key_makes_no_request :
    OpenRouter.fetchCount (OpenRouter.openrouterChat envWithoutKey none).2 = 0 ∧
    ¬ OpenRouter.fetchCount (OpenRouter.openrouterChat envWithoutKey none).2 = 1 ∧
    (OpenRouter.openrouterChat envWithoutKey none).1
        = .error "OPENROUTER_API_KEY is missing" := by
  refine ⟨rfl, by decide, rfl⟩

/-- C3 (amended): every `openrouterChat` call made with an API key
configured issues exactly one request to the chat-completions endpoint,
with the abort timer armed for `timeoutMs` milliseconds (defaulting to
60000 when neither the argument nor the environment variable supplies a
value) and cleared whatever the outcome; when the timer aborts the fetch,
the call fails with `"OpenRouter timeout after <timeoutMs>ms"`. -/
theorem c3_single_timed_request_and_cleanup (env : OpenRouter.OrEnv)
    (timeoutMsArg : Option Nat) (hkey : ¬ env.apiKey.getD "" = "") :
    (OpenRouter.openrouterChat env timeoutMsArg).2 =
      [.timerSet (OpenRouter.effectiveTimeoutMs timeoutMsArg env),
       .fetchReq OpenRouter.orEndpoint, .timerCleared] ∧
    OpenRouter.fetchCount (OpenRouter.openrouterChat env timeoutMsArg).2 = 1 ∧
    OpenRouter.OrEvent.timerCleared ∈ (OpenRouter.openrouterChat env timeoutMsArg).2 ∧
    (env.outcome = .aborted →
        (OpenRouter.openrouterChat env timeoutMsArg).1 =
          .error ("OpenRouter timeout after "
              ++ toString (OpenRouter.effectiveTimeoutMs timeoutMsArg env) ++ "ms")) ∧
    (timeoutMsArg = none → env.timeoutEnv = none →
        OpenRouter.effectiveTimeoutMs timeoutMsArg env = 60000) := by
  have h2 : (OpenRouter.openrouterChat env timeoutMsArg).2 =
      [.timerSet (OpenRouter.effectiveTimeoutMs timeoutMsArg env),
       .fetchReq OpenRouter.orEndpoint, .timerCleared] := by
    simp [OpenRouter.openrouterChat, hkey]
  refine ⟨h2, ?_, ?_, ?_, ?_⟩
  · rw [h2]; rfl
  · rw [h2]; simp
  · intro hab
    simp [OpenRouter.openrouterChat, hkey, hab]
  · intro ha he
    simp [OpenRouter.effectiveTimeoutMs, ha, he]

/-- C3 witness: with a key configured and the fetch aborted by the timer,
the call issues one request, fails with the 60000 ms timeout message, and
clears the timer. -/
theorem c3_timeout_witness :
    OpenRouter.fetchCount (OpenRouter.openrouterChat envAbortedFetch none).2 = 1 ∧
    (OpenRouter.openrouterChat envAbortedFetch none).1
        = .error "OpenRouter timeout after 60000ms" ∧
    OpenRouter.OrEvent.timerCleared ∈ (OpenRouter.openrouterChat envAbortedFetch none).2 := by
  have h := c3_single_timed_request_and_cleanup envAbortedFetch none (by decide)
  exact ⟨h.2.1, (h.2.2.2.1 rfl).trans rfl, h.2.2.1⟩

/-- C8: the backend picks the vision model exactly when the request
carries a `lastFrame` file or at least one `clipFrames` file; a request
with neither — however many `attachments` it carries — goes to the text
model. -/
theorem c8_vision_model_selection :
    (∀ r : Backend.SendRequest,
        Backend.hasVision r = true ↔ r.lastFrame.isSome = true ∨ r.clipFrames ≠ []) ∧
    (∀ (envText envVision : Option String) (r : Backend.SendRequest),
        Backend.hasVision r = true →
        Backend.modelPlain envText envVision r = Backend.visionModelPlain envVision) ∧
    (∀ (envText envVision : Option String) (r : Backend.SendRequest),
        Backend.hasVision r = false →
        Backend.modelPlain envText envVision r = Backend.textModelPlain envText) ∧
    (∀ (envText envVision : Option String) (r : Backend.SendRequest),
        r.lastFrame = none → r.clipFrames = [] →
        Backend.modelPlain envText envVision r = Backend.textModelPlain envText) := by
  refine ⟨?_, ?_, ?_, ?_⟩
  · intro r
    simp [Backend.hasVision, List.length_pos]
  · intro eT eV r h
    simp [Backend.modelPlain, h]
  · intro eT eV r h
    simp [Backend.modelPlain, h]
  · intro eT eV r h1 h2
    simp [Backend.modelPlain, Backend.hasVision, h1, h2]

/-- C8 witness: a request with a last frame and clip frames goes to the
(default) vision model; an attachments-only request goes to the (default)
text model. -/
theorem c8_model_selection_witness :
    Backend.modelPlain none none sampleVisionRequest = "qwen/qwen2.5-vl-32b-instruct" ∧
    Backend.modelPlain none none sampleAttachmentsRequest = "deepseek/deepseek-chat" := by
  have h := c8_vision_model_selection
  exact ⟨(h.2.1 none none sampleVisionRequest rfl).trans rfl,
         (h.2.2.2 none none sampleAttachmentsRequest rfl rfl).trans rfl⟩

/-- `imageUrls` distributes over list append. -/
theorem imageUrls_append (a b : List Backend.ContentPart) :
    Backend.imageUrls (a ++ b) = Backend.imageUrls a ++ Backend.imageUrls b :=
  List.filterMap_append a b _

/-- A conditional text part contributes no image URL. -/
theorem imageUrls_ite_text (c : Bool) (t : String) :
    Backend.imageUrls (if c then [Backend.ContentPart.text t] else []) = [] := by
  cases c <;> rfl

/-- A conditional text part (propositional condition) contributes no
image URL. -/
theorem imageUrls_propIte_text (c : Prop) [Decidable c] (t : String) :
    Backend.imageUrls (if c then [Backend.ContentPart.text t] else []) = [] := by
  by_cases h : c <;> simp [h, Backend.imageUrls]

/-- The image URLs of the optional `lastFrame` part are exactly its data
URL (when the file and its buffer exist). -/
theorem imageUrls_lastFrame (r : Backend.SendRequest) :
    Backend.imageUrls (r.lastFrame.bind Backend.imagePartOf).toList
      = lastFrameDataUrls r := by
  cases hlf : r.lastFrame with
  | none => simp [lastFrameDataUrls, hlf, Backend.imageUrls]
  | some f =>
      cases hb : f.buffer with
      | none => simp [lastFrameDataUrls, hlf, hb, Backend.imagePartOf, Backend.imageUrls]
      | some b => simp [lastFrameDataUrls, hlf, hb, Backend.imagePartOf, Backend.imageUrls]

/-- The image URLs of a clip-part list are the data URLs of the files
that carry a buffer. -/
theorem imageUrls_clipParts (xs : List Backend.UploadFile) :
    Backend.imageUrls (xs.filterMap Backend.imagePartOf)
      = xs.filterMap (fun f => f.buffer.map OpenRouter.bufferToDataUrlJpeg) := by
  induction xs with
  | nil => rfl
  | cons f t ih =>
      cases hb : f.buffer with
      | none =>
          simp [Backend.imagePartOf, Backend.imageUrls, hb, List.filterMap_cons] at ih ⊢
          exact ih
      | some b =>
          simp [Backend.imagePartOf, Backend.imageUrls, hb, List.filterMap_cons] at ih ⊢
          exact ih

/-- C9: the images a request contributes to the chat-completions call
are its `lastFrame` plus the first three `clipFrames` in the plain
handler — and the first `CLIP_FRAMES_LIMIT` (default 3) in the timed
handler — no matter how many clip frames were uploaded; without any
frame, no image is sent at all. -/
theorem c9_clip_frames_capped :
    (∀ r : Backend.SendRequest, Backend.hasVision r = true →
        Backend.imageUrls (Backend.userContentPlain r)
          = lastFrameDataUrls r ++ clipDataUrls 3 r) ∧
    (∀ r : Backend.SendRequest, Backend.hasVision r = false →
        Backend.imageUrls (Backend.userContentPlain r) = []) ∧
    (∀ (envLimit : Option Nat) (r : Backend.SendRequest),
        Backend.imageUrls (BackendTimed.userPartsTimed envLimit r)
          = lastFrameDataUrls r ++ clipDataUrls (BackendTimed.clipLimit envLimit) r) ∧
    BackendTimed.clipLimit none = 3 ∧
    (∀ r : Backend.SendRequest, (clipDataUrls 3 r).length ≤ 3) := by
  refine ⟨?_, ?_, ?_, rfl, ?_⟩
  · intro r h
    unfold Backend.userContentPlain
    rw [h]
    simp only [if_true]
    rw [imageUrls_append, imageUrls_ite_text, imageUrls_append, imageUrls_append,
        imageUrls_lastFrame, imageUrls_clipParts, imageUrls_propIte_text]
    simp [clipDataUrls]
  · intro r h
    unfold Backend.userContentPlain
    rw [h]
    simp only [Bool.false_eq_true, if_false]
    rw [imageUrls_append, imageUrls_ite_text]
    rfl
  · intro envLimit r
    unfold BackendTimed.userPartsTimed
    rw [imageUrls_append, imageUrls_append, imageUrls_append,
        imageUrls_ite_text, imageUrls_ite_text, imageUrls_lastFrame, imageUrls_clipParts]
    simp [clipDataUrls, BackendTimed.clipUsed]
  · intro r
    calc (clipDataUrls 3 r).length
        ≤ (r.clipFrames.take 3).length := List.length_filterMap_le _ _
      _ ≤ 3 := List.length_take_le _ _

/-- C9 witness: for a request with five clip frames, exactly the last
frame plus the first three clip frames become data URLs. -/
theorem c9_clip_limit_witness :
    Backend.imageUrls (Backend.userContentPlain sampleVisionRequest)
      = lastFrameDataUrls sampleVisionRequest ++ clipDataUrls 3 sampleVisionRequest ∧
    lastFrameDataUrls sampleVisionRequest = ["data:image/jpeg;base64,TEFTVA"] ∧
    clipDataUrls 3 sampleVisionRequest
      = ["data:image/jpeg;base64,QQ", "data:image/jpeg;base64,Qg",
         "data:image/jpeg;base64,Qw"] := by
  exact ⟨c9_clip_frames_capped.1 sampleVisionRequest rfl, rfl, rfl⟩

/-- C10: the `clear_chat` action keeps exactly the system messages — a
message survives iff it was present and has role `system` — and leaves
`isOpen`, `settings`, `inputText`, `attachments` and
`lastVisionCaptureAt` untouched. -/
theorem c10_clear_chat_keeps_only_system_messages (s : Core.AssistantState) :
    (Core.assistantReducer s .clear_chat).messages
        = s.messages.filter (fun m => decide (m.role = Core.Role.system)) ∧
    (∀ m : Core.ChatMessage,
        m ∈ (Core.assistantReducer s .clear_chat).messages ↔
          m ∈ s.messages ∧ m.role = Core.Role.system) ∧
    (Core.assistantReducer s .clear_chat).isOpen = s.isOpen ∧
    (Core.assistantReducer s .clear_chat).settings = s.settings ∧
    (Core.assistantReducer s .clear_chat).inputText = s.inputText ∧
    (Core.assistantReducer s .clear_chat).attachments = s.attachments ∧
    (Core.assistantReducer s .clear_chat).lastVisionCaptureAt = s.lastVisionCaptureAt := by
  refine ⟨rfl, ?_, rfl, rfl, rfl, rfl, rfl⟩
  intro m
  simp [Core.assistantReducer, List.mem_filter]

/-- C10 witness: on a concrete three-message state, `clear_chat` keeps
only the system message and preserves the other fields. -/
theorem c10_clear_chat_witness :
    (Core.assistantReducer sampleAssistantState .clear_chat).messages
        = [{ id := "sys-1", role := .system, content := "Assistant ready.", createdAt := 1 }] ∧
    (Core.assistantReducer sampleAssistantState .clear_chat).attachments
        = sampleAssistantState.attachments ∧
    (Core.assistantReducer sampleAssistantState .clear_chat).inputText = "draft" := by
  have h := c10_clear_chat_keeps_only_system_messages sampleAssistantState
  refine ⟨?_, h.2.2.2.2.2.1, h.2.2.2.2.1⟩
  rw [h.1]
  rfl

end AssistantSuite
